import Mathlib

/-!
Verification of the cube-grid scene builder and the viewer lifecycle of the
CubeChess prototype (src/src/App.tsx).

The geometry builder (buildCubeGrid / makeFaceGrid, lines 192-281 of App.tsx)
is a pure computation on rational coordinates; it is embedded directly.
Colours and materials carry no geometric content and are omitted; numeric
literals of the source (0.001, 0.95, -0.4, 0.15, 2.4) are embedded as the
exact rationals they denote in the source text.

The viewer lifecycle (the effect body, lines 11-100 of App.tsx) is embedded
as explicit state transformers over a small world record that tracks the
externally observable resources: the mount region, the canvas attachment,
the resize listener registration, the animation-frame loop and the dispose
calls on controls and renderer.
-/

namespace CubeChess

/-- Rational 3-vector, modelling THREE.Vector3 as used by the builder. -/
structure Vec3 where
  x : ℚ
  y : ℚ
  z : ℚ
  deriving DecidableEq, Repr

/-- Vector3.add of the rendering library: componentwise addition. -/
def Vec3.add (a b : Vec3) : Vec3 := ⟨a.x + b.x, a.y + b.y, a.z + b.z⟩

/-- Vector3.multiplyScalar of the rendering library. -/
def Vec3.multiplyScalar (a : Vec3) (s : ℚ) : Vec3 := ⟨a.x * s, a.y * s, a.z * s⟩

/-- A line segment given by its two 3-D endpoints; two consecutive vertices
pushed into the position buffer of a LineSegments object form one segment. -/
abbrev Segment := Vec3 × Vec3

/-- A point of a face plane: offset + uDir * su + vDir * sv, exactly the
expression new Vector3().copy(offset).add(uDir.clone().multiplyScalar(su))
.add(vDir.clone().multiplyScalar(sv)) of makeFaceGrid (App.tsx 224-242). -/
def facePoint (offset uDir vDir : Vec3) (su sv : ℚ) : Vec3 :=
  (offset.add (uDir.multiplyScalar su)).add (vDir.multiplyScalar sv)

/-- makeFaceGrid (App.tsx 220-249): for i = 1 .. n-1 it emits a horizontal
segment (endpoints a, b) and a vertical segment (endpoints c, d), with
half = size / 2, step = size / n and parameter t = -half + i * step. -/
def makeFaceGrid (n : ℕ) (size : ℚ) (offset uDir vDir : Vec3) : List Segment :=
  let half := size / 2
  let step := size / n
  (List.range (n - 1)).flatMap fun k =>
    let i : ℚ := (k : ℚ) + 1
    let a := facePoint offset uDir vDir (-half) (-half + i * step)
    let b := facePoint offset uDir vDir half (-half + i * step)
    let c := facePoint offset uDir vDir (-half + i * step) (-half)
    let d := facePoint offset uDir vDir (-half + i * step) half
    [(a, b), (c, d)]

/-- Models THREE.EdgesGeometry(new THREE.BoxGeometry(size, size, size))
(App.tsx 212): the 12 geometric edges of the axis-aligned cube of edge
length size centred at the origin, as the rendering library extracts them. -/
def cubeEdges (size : ℚ) : List Segment :=
  let h := size / 2
  [ (⟨-h, -h, -h⟩, ⟨h, -h, -h⟩), (⟨-h, h, -h⟩, ⟨h, h, -h⟩),
    (⟨-h, -h, h⟩, ⟨h, -h, h⟩), (⟨-h, h, h⟩, ⟨h, h, h⟩),
    (⟨-h, -h, -h⟩, ⟨-h, h, -h⟩), (⟨h, -h, -h⟩, ⟨h, h, -h⟩),
    (⟨-h, -h, h⟩, ⟨-h, h, h⟩), (⟨h, -h, h⟩, ⟨h, h, h⟩),
    (⟨-h, -h, -h⟩, ⟨-h, -h, h⟩), (⟨h, -h, -h⟩, ⟨h, -h, h⟩),
    (⟨-h, h, -h⟩, ⟨-h, h, h⟩), (⟨h, h, -h⟩, ⟨h, h, h⟩) ]

/-- The group returned by buildCubeGrid: the solid box mesh (size, opacity
0.95, transparent), the outer wireframe edge set, the six face grids in
source order (+Z, -Z, +X, -X, +Y, -Y), and the initial rotation offsets
group.rotation.y = -0.4 and group.rotation.x = 0.15. -/
structure CubeSceneNode where
  boxSize : ℚ
  boxOpacity : ℚ
  boxTransparent : Bool
  wireframeEdges : List Segment
  faceGrids : List (List Segment)
  rotY : ℚ
  rotX : ℚ
  deriving DecidableEq, Repr

/-- buildCubeGrid (App.tsx 192-281) with half = size / 2 and the face offset
epsilon 0.001 of the source; offsets and basis vectors are those of lines
251-274 and the rotations those of lines 277-278. -/
def buildCubeGrid (n : ℕ) (size : ℚ) : CubeSceneNode :=
  let half := size / 2
  let eps : ℚ := 1 / 1000
  { boxSize := size
    boxOpacity := 19 / 20
    boxTransparent := true
    wireframeEdges := cubeEdges size
    faceGrids :=
      [ makeFaceGrid n size ⟨0, 0, half + eps⟩ ⟨1, 0, 0⟩ ⟨0, 1, 0⟩
      , makeFaceGrid n size ⟨0, 0, -half - eps⟩ ⟨-1, 0, 0⟩ ⟨0, 1, 0⟩
      , makeFaceGrid n size ⟨half + eps, 0, 0⟩ ⟨0, 0, -1⟩ ⟨0, 1, 0⟩
      , makeFaceGrid n size ⟨-half - eps, 0, 0⟩ ⟨0, 0, 1⟩ ⟨0, 1, 0⟩
      , makeFaceGrid n size ⟨0, half + eps, 0⟩ ⟨1, 0, 0⟩ ⟨0, 0, -1⟩
      , makeFaceGrid n size ⟨0, -half - eps, 0⟩ ⟨1, 0, 0⟩ ⟨0, 0, 1⟩ ]
    rotY := -2/5
    rotX := 3/20 }

/-- Coordinate axes of world space. -/
inductive Axis where
  | X
  | Y
  | Z
  deriving DecidableEq, Repr

/-- Coordinate of a vector along an axis. -/
def Vec3.coord (p : Vec3) (a : Axis) : ℚ :=
  match a with
  | .X => p.x
  | .Y => p.y
  | .Z => p.z

/-- Length of a two-pushes-per-iteration loop body, as in makeFaceGrid. -/
lemma length_flatMap_two (l : List ℕ) (f g : ℕ → Segment) :
    (l.flatMap fun k => [f k, g k]).length = 2 * l.length := by
  induction l with
  | nil => rfl
  | cons a t ih =>
    simp only [List.flatMap_cons, List.length_append, List.length_cons,
      List.length_nil, ih]
    omega

/-- Each face grid has exactly 2 * (n - 1) segments, whatever the size and
the face frame. -/
lemma makeFaceGrid_length (n : ℕ) (size : ℚ) (offset uDir vDir : Vec3) :
    (makeFaceGrid n size offset uDir vDir).length = 2 * (n - 1) := by
  unfold makeFaceGrid
  rw [length_flatMap_two]
  simp

/-- Endpoint decomposition: every endpoint of every segment of a face grid
is facePoint offset uDir vDir su sv with both parameters bounded by
size / 2 in absolute value. -/
lemma makeFaceGrid_endpoint (n : ℕ) (size : ℚ) (offset uDir vDir : Vec3)
    (hs : 0 < size) (seg : Segment)
    (hseg : seg ∈ makeFaceGrid n size offset uDir vDir) (p : Vec3)
    (hp : p = seg.1 ∨ p = seg.2) :
    ∃ su sv : ℚ, |su| ≤ size / 2 ∧ |sv| ≤ size / 2 ∧
      p = facePoint offset uDir vDir su sv := by
  simp only [makeFaceGrid, List.mem_flatMap, List.mem_range, List.mem_cons,
    List.mem_singleton, List.not_mem_nil, or_false] at hseg
  obtain ⟨k, hk, hcase⟩ := hseg
  have hn2 : 2 ≤ n := by omega
  have hnQ : (0 : ℚ) < n := by
    have : 0 < n := by omega
    exact_mod_cast this
  have hstep : 0 < size / n := div_pos hs hnQ
  have hhalf : |(-(size / 2))| ≤ size / 2 := by
    rw [abs_neg, abs_of_nonneg (by linarith)]
  have hhalf2 : |size / 2| ≤ size / 2 := by
    rw [abs_of_nonneg (by linarith)]
  have hoffset : |(-(size / 2) + ((k : ℚ) + 1) * (size / n))| ≤ size / 2 := by
    have hkn : (k : ℚ) + 2 ≤ (n : ℚ) := by exact_mod_cast (by omega : k + 2 ≤ n)
    have hmulc : (n : ℚ) * (size / n) = size := by field_simp
    have hub : ((k : ℚ) + 1) * (size / n) < size := by
      have hlt : (k : ℚ) + 1 < (n : ℚ) := by linarith
      have := mul_lt_mul_of_pos_right hlt hstep
      linarith [this]
    have hlb : 0 < ((k : ℚ) + 1) * (size / n) := by
      have : (0 : ℚ) < (k : ℚ) + 1 := by positivity
      exact mul_pos this hstep
    rw [abs_le]
    constructor <;> linarith
  rcases hcase with h | h <;> rcases hp with hp | hp <;> subst h <;> subst hp
  · exact ⟨-(size / 2), -(size / 2) + ((k : ℚ) + 1) * (size / n), hhalf, hoffset, rfl⟩
  · exact ⟨size / 2, -(size / 2) + ((k : ℚ) + 1) * (size / n), hhalf2, hoffset, rfl⟩
  · exact ⟨-(size / 2) + ((k : ℚ) + 1) * (size / n), -(size / 2), hoffset, hhalf, rfl⟩
  · exact ⟨-(size / 2) + ((k : ℚ) + 1) * (size / n), size / 2, hoffset, hhalf2, rfl⟩

/-- Claim C1: for every n at least 1 and positive size, buildCubeGrid emits
exactly 2 * (n - 1) interior grid segments per face, 12 * (n - 1) grid
segments over the six faces, and exactly 12 outer wireframe edges; the
per-face and total counts depend only on n, not on size. -/
theorem buildCubeGrid_counts (n : ℕ) (size : ℚ) (hn : 1 ≤ n) (hs : 0 < size) :
    (∀ g ∈ (buildCubeGrid n size).faceGrids, g.length = 2 * (n - 1)) ∧
    ((buildCubeGrid n size).faceGrids.map List.length).sum = 12 * (n - 1) ∧
    (buildCubeGrid n size).wireframeEdges.length = 12 ∧
    (∀ size2 : ℚ, 0 < size2 →
      (buildCubeGrid n size).faceGrids.map List.length =
        (buildCubeGrid n size2).faceGrids.map List.length ∧
      (buildCubeGrid n size).wireframeEdges.length =
        (buildCubeGrid n size2).wireframeEdges.length) := by
  refine ⟨?_, ?_, ?_, ?_⟩
  · intro g hg
    simp only [buildCubeGrid, List.mem_cons, List.not_mem_nil, or_false] at hg
    rcases hg with h | h | h | h | h | h <;> subst h <;>
      exact makeFaceGrid_length ..
  · simp [buildCubeGrid, makeFaceGrid_length]
    ring
  · simp [buildCubeGrid, cubeEdges]
  · intro size2 _
    simp [buildCubeGrid, makeFaceGrid_length, cubeEdges]

/-- Witness for buildCubeGrid_counts at n = 3, size = 2.4. -/
theorem buildCubeGrid_counts_witness :
    (∀ g ∈ (buildCubeGrid 3 (12/5)).faceGrids, g.length = 2 * (3 - 1)) ∧
    ((buildCubeGrid 3 (12/5)).faceGrids.map List.length).sum = 12 * (3 - 1) ∧
    (buildCubeGrid 3 (12/5)).wireframeEdges.length = 12 ∧
    (∀ size2 : ℚ, 0 < size2 →
      (buildCubeGrid 3 (12/5)).faceGrids.map List.length =
        (buildCubeGrid 3 size2).faceGrids.map List.length ∧
      (buildCubeGrid 3 (12/5)).wireframeEdges.length =
        (buildCubeGrid 3 size2).wireframeEdges.length) :=
  buildCubeGrid_counts 3 (12/5) (by norm_num) (by norm_num)

/-- Packaging step for the surface-bound theorem: an axis where the point
sits exactly at the offset face plane, while all other coordinates stay
within the half-edge bound. -/
lemma axis_witness (size : ℚ) (p : Vec3) (a : Axis) (su sv : ℚ)
    (hsu : |su| ≤ size / 2) (hsv : |sv| ≤ size / 2)
    (hnormal : |p.coord a| = size / 2 + 1 / 1000)
    (hothers : ∀ b : Axis, b ≠ a →
      p.coord b = su ∨ p.coord b = -su ∨ p.coord b = sv ∨ p.coord b = -sv) :
    ∃ a2 : Axis, |p.coord a2| = size / 2 + 1 / 1000 ∧
      ∀ b : Axis, b ≠ a2 → |p.coord b| ≤ size / 2 := by
  refine ⟨a, hnormal, fun b hb => ?_⟩
  rcases hothers b hb with h | h | h | h
  · rw [h]; exact hsu
  · rw [h, abs_neg]; exact hsu
  · rw [h]; exact hsv
  · rw [h, abs_neg]; exact hsv

/-- Claim C2: every endpoint of every grid segment of buildCubeGrid lies
exactly at distance size / 2 + 0.001 from the centre along the face normal
axis, and within size / 2 along the two axes spanning the face plane; hence
no grid vertex lies strictly inside the cube nor farther outside than the
0.001 offset. -/
theorem buildCubeGrid_on_surface (n : ℕ) (size : ℚ) (hn : 1 ≤ n)
    (hs : 0 < size) :
    ∀ g ∈ (buildCubeGrid n size).faceGrids, ∀ seg ∈ g, ∀ p : Vec3,
      p = seg.1 ∨ p = seg.2 →
      ∃ a : Axis, |p.coord a| = size / 2 + 1 / 1000 ∧
        ∀ b : Axis, b ≠ a → |p.coord b| ≤ size / 2 := by
  intro g hg seg hseg p hp
  have hpos : (0 : ℚ) ≤ size / 2 + 1 / 1000 := by linarith
  simp only [buildCubeGrid, List.mem_cons, List.not_mem_nil, or_false] at hg
  rcases hg with h | h | h | h | h | h <;> subst h
  · -- +Z face
    obtain ⟨su, sv, hsu, hsv, hP⟩ :=
      makeFaceGrid_endpoint n size _ _ _ hs seg hseg p hp
    have hz : p.coord Axis.Z = size / 2 + 1 / 1000 := by
      rw [hP]; simp only [facePoint, Vec3.add, Vec3.multiplyScalar, Vec3.coord]; ring
    have hx : p.coord Axis.X = su := by
      rw [hP]; simp only [facePoint, Vec3.add, Vec3.multiplyScalar, Vec3.coord]; ring
    have hy : p.coord Axis.Y = sv := by
      rw [hP]; simp only [facePoint, Vec3.add, Vec3.multiplyScalar, Vec3.coord]; ring
    refine axis_witness size p Axis.Z su sv hsu hsv ?_ ?_
    · rw [hz, abs_of_nonneg hpos]
    · intro b hb; cases b
      · exact Or.inl hx
      · exact Or.inr (Or.inr (Or.inl hy))
      · exact absurd rfl hb
  · -- -Z face
    obtain ⟨su, sv, hsu, hsv, hP⟩ :=
      makeFaceGrid_endpoint n size _ _ _ hs seg hseg p hp
    have hz : p.coord Axis.Z = -(size / 2 + 1 / 1000) := by
      rw [hP]; simp only [facePoint, Vec3.add, Vec3.multiplyScalar, Vec3.coord]; ring
    have hx : p.coord Axis.X = -su := by
      rw [hP]; simp only [facePoint, Vec3.add, Vec3.multiplyScalar, Vec3.coord]; ring
    have hy : p.coord Axis.Y = sv := by
      rw [hP]; simp only [facePoint, Vec3.add, Vec3.multiplyScalar, Vec3.coord]; ring
    refine axis_witness size p Axis.Z su sv hsu hsv ?_ ?_
    · rw [hz, abs_neg, abs_of_nonneg hpos]
    · intro b hb; cases b
      · exact Or.inr (Or.inl hx)
      · exact Or.inr (Or.inr (Or.inl hy))
      · exact absurd rfl hb
  · -- +X face
    obtain ⟨su, sv, hsu, hsv, hP⟩ :=
      makeFaceGrid_endpoint n size _ _ _ hs seg hseg p hp
    have hx : p.coord Axis.X = size / 2 + 1 / 1000 := by
      rw [hP]; simp only [facePoint, Vec3.add, Vec3.multiplyScalar, Vec3.coord]; ring
    have hy : p.coord Axis.Y = sv := by
      rw [hP]; simp only [facePoint, Vec3.add, Vec3.multiplyScalar, Vec3.coord]; ring
    have hz : p.coord Axis.Z = -su := by
      rw [hP]; simp only [facePoint, Vec3.add, Vec3.multiplyScalar, Vec3.coord]; ring
    refine axis_witness size p Axis.X su sv hsu hsv ?_ ?_
    · rw [hx, abs_of_nonneg hpos]
    · intro b hb; cases b
      · exact absurd rfl hb
      · exact Or.inr (Or.inr (Or.inl hy))
      · exact Or.inr (Or.inl hz)
  · -- -X face
    obtain ⟨su, sv, hsu, hsv, hP⟩ :=
      makeFaceGrid_endpoint n size _ _ _ hs seg hseg p hp
    have hx : p.coord Axis.X = -(size / 2 + 1 / 1000) := by
      rw [hP]; simp only [facePoint, Vec3.add, Vec3.multiplyScalar, Vec3.coord]; ring
    have hy : p.coord Axis.Y = sv := by
      rw [hP]; simp only [facePoint, Vec3.add, Vec3.multiplyScalar, Vec3.coord]; ring
    have hz : p.coord Axis.Z = su := by
      rw [hP]; simp only [facePoint, Vec3.add, Vec3.multiplyScalar, Vec3.coord]; ring
    refine axis_witness size p Axis.X su sv hsu hsv ?_ ?_
    · rw [hx, abs_neg, abs_of_nonneg hpos]
    · intro b hb; cases b
      · exact absurd rfl hb
      · exact Or.inr (Or.inr (Or.inl hy))
      · exact Or.inl hz
  · -- +Y face
    obtain ⟨su, sv, hsu, hsv, hP⟩ :=
      makeFaceGrid_endpoint n size _ _ _ hs seg hseg p hp
    have hy : p.coord Axis.Y = size / 2 + 1 / 1000 := by
      rw [hP]; simp only [facePoint, Vec3.add, Vec3.multiplyScalar, Vec3.coord]; ring
    have hx : p.coord Axis.X = su := by
      rw [hP]; simp only [facePoint, Vec3.add, Vec3.multiplyScalar, Vec3.coord]; ring
    have hz : p.coord Axis.Z = -sv := by
      rw [hP]; simp only [facePoint, Vec3.add, Vec3.multiplyScalar, Vec3.coord]; ring
    refine axis_witness size p Axis.Y su sv hsu hsv ?_ ?_
    · rw [hy, abs_of_nonneg hpos]
    · intro b hb; cases b
      · exact Or.inl hx
      · exact absurd rfl hb
      · exact Or.inr (Or.inr (Or.inr hz))
  · -- -Y face
    obtain ⟨su, sv, hsu, hsv, hP⟩ :=
      makeFaceGrid_endpoint n size _ _ _ hs seg hseg p hp
    have hy : p.coord Axis.Y = -(size / 2 + 1 / 1000) := by
      rw [hP]; simp only [facePoint, Vec3.add, Vec3.multiplyScalar, Vec3.coord]; ring
    have hx : p.coord Axis.X = su := by
      rw [hP]; simp only [facePoint, Vec3.add, Vec3.multiplyScalar, Vec3.coord]; ring
    have hz : p.coord Axis.Z = sv := by
      rw [hP]; simp only [facePoint, Vec3.add, Vec3.multiplyScalar, Vec3.coord]; ring
    refine axis_witness size p Axis.Y su sv hsu hsv ?_ ?_
    · rw [hy, abs_neg, abs_of_nonneg hpos]
    · intro b hb; cases b
      · exact Or.inl hx
      · exact absurd rfl hb
      · exact Or.inr (Or.inr (Or.inl hz))

/-- Witness for buildCubeGrid_on_surface at n = 3, size = 2.4, evaluated on
the first endpoint of the first grid segment of the front face. -/
theorem buildCubeGrid_on_surface_witness :
    ∃ a : Axis,
      |Vec3.coord ⟨-6/5, -2/5, 1201/1000⟩ a| = (12/5 : ℚ) / 2 + 1 / 1000 ∧
      ∀ b : Axis, b ≠ a →
        |Vec3.coord ⟨-6/5, -2/5, 1201/1000⟩ b| ≤ (12/5 : ℚ) / 2 :=
  by
  have hg : makeFaceGrid 3 (12/5) ⟨0, 0, (12/5 : ℚ)/2 + 1/1000⟩ ⟨1, 0, 0⟩
      ⟨0, 1, 0⟩ ∈ (buildCubeGrid 3 (12/5)).faceGrids := by
    simp [buildCubeGrid]
  have hseg : ((⟨-6/5, -2/5, 1201/1000⟩, ⟨6/5, -2/5, 1201/1000⟩) : Segment) ∈
      makeFaceGrid 3 (12/5) ⟨0, 0, (12/5 : ℚ)/2 + 1/1000⟩ ⟨1, 0, 0⟩
        ⟨0, 1, 0⟩ := by
    unfold makeFaceGrid
    rw [List.mem_flatMap]
    refine ⟨0, by simp, ?_⟩
    refine List.mem_cons.mpr (Or.inl ?_)
    norm_num [facePoint, Vec3.add, Vec3.multiplyScalar, Prod.mk.injEq,
      Vec3.mk.injEq]
  exact buildCubeGrid_on_surface 3 (12/5) (by norm_num) (by norm_num)
    _ hg _ hseg ⟨-6/5, -2/5, 1201/1000⟩ (Or.inl rfl)

/-- Claim C7: with n = 1 the loop body of makeFaceGrid never runs, so every
face grid is empty and the node still carries the solid volume data and the
12 wireframe edges; the builder is total, so no error is possible. -/
theorem buildCubeGrid_n1_undecorated (size : ℚ) (hs : 0 < size) :
    (∀ g ∈ (buildCubeGrid 1 size).faceGrids, g = []) ∧
    ((buildCubeGrid 1 size).faceGrids.map List.length).sum = 0 ∧
    (buildCubeGrid 1 size).wireframeEdges.length = 12 ∧
    (buildCubeGrid 1 size).boxSize = size := by
  refine ⟨?_, ?_, ?_, rfl⟩
  · intro g hg
    simp only [buildCubeGrid, List.mem_cons, List.not_mem_nil, or_false] at hg
    rcases hg with h | h | h | h | h | h <;> subst h <;> rfl
  · simp [buildCubeGrid, makeFaceGrid_length]
  · simp [buildCubeGrid, cubeEdges]

/-- Witness for buildCubeGrid_n1_undecorated at size = 2.4. -/
theorem buildCubeGrid_n1_undecorated_witness :
    (∀ g ∈ (buildCubeGrid 1 (12/5)).faceGrids, g = []) ∧
    ((buildCubeGrid 1 (12/5)).faceGrids.map List.length).sum = 0 ∧
    (buildCubeGrid 1 (12/5)).wireframeEdges.length = 12 ∧
    (buildCubeGrid 1 (12/5)).boxSize = 12/5 :=
  buildCubeGrid_n1_undecorated (12/5) (by norm_num)

/-- State-passing form of buildCubeGrid over an arbitrary external state
type. Every object the source routine allocates (group, materials, box
mesh, edges geometry, face line segments) is created inside the call and
every mutation (opacity, transparent, rotation) targets one of those fresh
objects, so the routine neither reads nor writes anything in the external
state, which passes through unchanged. -/
def buildCubeGridW (σ : Type) (n : ℕ) (size : ℚ) (ext : σ) :
    CubeSceneNode × σ :=
  (buildCubeGrid n size, ext)

/-- Claim C9: buildCubeGrid is deterministic and side-effect-free on valid
inputs: two invocations with equal arguments return structurally equal
nodes, and the external state after a call is the state before it. -/
theorem buildCubeGrid_deterministic_pure (σ : Type) (ext : σ) (n n2 : ℕ)
    (size size2 : ℚ) (hn : 1 ≤ n) (hs : 0 < size)
    (heqn : n = n2) (heqs : size = size2) :
    (buildCubeGridW σ n size ext).1 = (buildCubeGridW σ n2 size2 ext).1 ∧
    (buildCubeGridW σ n size ext).2 = ext := by
  subst heqn
  subst heqs
  exact ⟨rfl, rfl⟩

/-- Witness for buildCubeGrid_deterministic_pure at n = 3, size = 2.4, with
the external state instantiated to a natural-number counter. -/
theorem buildCubeGrid_deterministic_pure_witness :
    (buildCubeGridW ℕ 3 (12/5) 7).1 = (buildCubeGridW ℕ 3 (12/5) 7).1 ∧
    (buildCubeGridW ℕ 3 (12/5) 7).2 = 7 :=
  buildCubeGrid_deterministic_pure ℕ 7 3 3 (12/5) (12/5)
    (by norm_num) (by norm_num) rfl rfl

/-- Interior parameter values of one face: t = -half + i * step for
i = 1 .. n-1, exactly the values makeFaceGrid feeds to facePoint. -/
def interiorOffsets (n : ℕ) (size : ℚ) : List ℚ :=
  (List.range (n - 1)).map fun (k : ℕ) =>
    -(size / 2) + ((k : ℚ) + 1) * (size / n)

/-- Point reflection through a centre c. -/
def pointReflect (c p : Vec3) : Vec3 :=
  ⟨2 * c.x - p.x, 2 * c.y - p.y, 2 * c.z - p.z⟩

/-- Negating the interior offset of index k yields the interior offset of
index n - 2 - k. -/
lemma negOffset_index (n k : ℕ) (size : ℚ) (hk : k < n - 1) :
    -(-(size / 2) + ((k : ℚ) + 1) * (size / n)) =
      -(size / 2) + (((n - 2 - k : ℕ) : ℚ) + 1) * (size / n) := by
  have h2 : 2 ≤ n := by omega
  have hk2 : k ≤ n - 2 := by omega
  have hcast : ((n - 2 - k : ℕ) : ℚ) = (n : ℚ) - 2 - (k : ℚ) := by
    rw [Nat.cast_sub hk2, Nat.cast_sub h2]
    norm_num
  have hn0 : (n : ℚ) ≠ 0 := Nat.cast_ne_zero.mpr (by omega)
  rw [hcast]
  field_simp
  ring

/-- Point reflection through the face centre sends a face point to the face
point with both parameters negated. -/
lemma pointReflect_facePoint (c uDir vDir : Vec3) (su sv : ℚ) :
    pointReflect c (facePoint c uDir vDir su sv) =
      facePoint c uDir vDir (-su) (-sv) := by
  simp only [pointReflect, facePoint, Vec3.add, Vec3.multiplyScalar,
    Vec3.mk.injEq]
  refine ⟨by ring, by ring, by ring⟩

/-- Claim C10: the interior offset set is closed under negation, and every
face grid is invariant under point reflection through the face centre: the
reflection of each grid segment (with endpoints swapped by the reflection)
is again a grid segment of the same face. -/
theorem faceGrid_center_symmetric (n : ℕ) (size : ℚ) (hn : 1 ≤ n)
    (hs : 0 < size) :
    (∀ t : ℚ, t ∈ interiorOffsets n size ↔ -t ∈ interiorOffsets n size) ∧
    (∀ offset uDir vDir : Vec3, ∀ seg ∈ makeFaceGrid n size offset uDir vDir,
      (pointReflect offset seg.2, pointReflect offset seg.1) ∈
        makeFaceGrid n size offset uDir vDir) := by
  have dir : ∀ t : ℚ, t ∈ interiorOffsets n size →
      -t ∈ interiorOffsets n size := by
    intro t ht
    unfold interiorOffsets at ht ⊢
    rw [List.mem_map] at ht ⊢
    obtain ⟨k, hk, heq⟩ := ht
    have hk2 : k < n - 1 := List.mem_range.mp hk
    refine ⟨n - 2 - k, List.mem_range.mpr (by omega), ?_⟩
    rw [← heq]
    exact (negOffset_index n k size hk2).symm
  refine ⟨fun t => ⟨dir t, fun h => ?_⟩, ?_⟩
  · have h2 := dir (-t) h
    simpa using h2
  · intro offset uDir vDir seg hseg
    simp only [makeFaceGrid, List.mem_flatMap, List.mem_range, List.mem_cons,
      List.mem_singleton, List.not_mem_nil, or_false] at hseg ⊢
    obtain ⟨k, hk, hcase⟩ := hseg
    refine ⟨n - 2 - k, by omega, ?_⟩
    rcases hcase with h | h <;> subst h
    · left
      rw [pointReflect_facePoint, pointReflect_facePoint, neg_neg,
        negOffset_index n k size hk]
    · right
      rw [pointReflect_facePoint, pointReflect_facePoint, neg_neg,
        negOffset_index n k size hk]

/-- Witness for faceGrid_center_symmetric at n = 3, size = 2.4. -/
theorem faceGrid_center_symmetric_witness :
    (∀ t : ℚ, t ∈ interiorOffsets 3 (12/5) ↔ -t ∈ interiorOffsets 3 (12/5)) ∧
    (∀ offset uDir vDir : Vec3,
      ∀ seg ∈ makeFaceGrid 3 (12/5) offset uDir vDir,
      (pointReflect offset seg.2, pointReflect offset seg.1) ∈
        makeFaceGrid 3 (12/5) offset uDir vDir) :=
  faceGrid_center_symmetric 3 (12/5) (by norm_num) (by norm_num)

/-- Observable resources of one viewer session and its host environment:
whether the mount region still exists (mountRef.current non-null), whether
the renderer canvas is a child of the mount region, how many registrations
of the onResize handler are active, whether an animation frame is
scheduled, how many frames have run, whether the cube group was inserted
into the scene, and how many times controls.dispose and renderer.dispose
have been called. -/
structure DomWorld where
  mountAttached : Bool
  canvasInMount : Bool
  resizeListeners : ℕ
  pendingFrame : Bool
  framesRun : ℕ
  geometryInserted : Bool
  controlsDisposeCount : ℕ
  rendererDisposeCount : ℕ
  deriving DecidableEq, Repr

/-- World at the moment the effect body starts: mount region live, nothing
set up yet. -/
def initialWorld : DomWorld :=
  { mountAttached := true
    canvasInMount := false
    resizeListeners := 0
    pendingFrame := false
    framesRun := 0
    geometryInserted := false
    controlsDisposeCount := 0
    rendererDisposeCount := 0 }

/-- Continuation of init after the two awaited imports resolve (App.tsx
23-82). Reading mountRef.current.clientWidth throws if the mount ref is
null, so the setup aborts with none; otherwise the code unconditionally
appends the canvas to the mount region, inserts the cube group into the
scene, registers the resize listener, and calls animate, which renders one
frame and schedules the next. The source contains no flag consulted here
that a prior teardown request could set. -/
def initResume (w : DomWorld) : Option DomWorld :=
  if w.mountAttached then
    some { w with
      canvasInMount := true
      geometryInserted := true
      resizeListeners := w.resizeListeners + 1
      pendingFrame := true
      framesRun := w.framesRun + 1 }
  else none

/-- Steps of the cleanup closure (App.tsx 85-91), in source order. -/
inductive TeardownStep where
  | removeResizeListener
  | cancelAnimationFrame
  | disposeControls
  | disposeRenderer
  | removeChildCanvas
  deriving DecidableEq, Repr

/-- Exceptions the cleanup closure can raise: the TypeError from
mountRef.current.removeChild when mountRef.current is null, and the DOM
NotFoundError from removeChild when the canvas is not a child of the mount
region. -/
inductive JsError where
  | typeErrorNullMount
  | domNotFound
  deriving DecidableEq, Repr

/-- Result of running the cleanup closure: the world reached, the steps
that completed, and the exception raised, if any. -/
structure CleanupOutcome where
  world : DomWorld
  events : List TeardownStep
  error : Option JsError
  deriving DecidableEq, Repr

/-- Cleanup closure returned by init (App.tsx 85-91): deregister the
resize handler, cancel the scheduled animation frame, dispose the
controls, dispose the renderer, then call mountRef.current.removeChild on
the canvas. The first four steps run unconditionally; the removeChild call
throws a TypeError when the mount ref is null and a NotFoundError when the
canvas is no longer a child of the mount region. -/
def cleanupRun (w : DomWorld) : CleanupOutcome :=
  let w1 := { w with resizeListeners := w.resizeListeners - 1 }
  let w2 := { w1 with pendingFrame := false }
  let w3 := { w2 with controlsDisposeCount := w2.controlsDisposeCount + 1 }
  let w4 := { w3 with rendererDisposeCount := w3.rendererDisposeCount + 1 }
  if w4.mountAttached then
    if w4.canvasInMount then
      { world := { w4 with canvasInMount := false }
        events := [.removeResizeListener, .cancelAnimationFrame,
          .disposeControls, .disposeRenderer, .removeChildCanvas]
        error := none }
    else
      { world := w4
        events := [.removeResizeListener, .cancelAnimationFrame,
          .disposeControls, .disposeRenderer]
        error := some .domNotFound }
  else
    { world := w4
      events := [.removeResizeListener, .cancelAnimationFrame,
        .disposeControls, .disposeRenderer]
      error := some .typeErrorNullMount }

/-- Teardown entry point returned by the effect (App.tsx 97-99): it runs
the cleanup closure only if the init promise has already resolved and
stored it in cleanupPromise; otherwise it does nothing, and in particular
it sets no flag that would suppress the still-pending init. -/
def effectCleanup (cleanupStored : Bool) (w : DomWorld) : DomWorld :=
  if cleanupStored then (cleanupRun w).world else w

/-- Interleaving for disposal-before-ready: the effect starts init and the
teardown request arrives while the imports are still pending, so
cleanupPromise is still undefined and effectCleanup is a no-op; afterwards
the imports resolve in an environment where the mount region is still
attached (as happens when the host remounts the component, the React
strict-mode double-invocation being the standard instance), and init
resumes. -/
def teardownDuringInitScenario : Option DomWorld :=
  let afterTeardown := effectCleanup false initialWorld
  initResume afterTeardown

/-- World of a session that reached Running from a fresh mount. -/
def runningWorld : DomWorld :=
  (initResume initialWorld).getD initialWorld

/-- Two consecutive invocations of the cleanup closure. -/
def cleanupTwice (w : DomWorld) : CleanupOutcome :=
  cleanupRun (cleanupRun w).world

/-- Running session whose mount region the host has already removed. -/
def detachedMountWorld : DomWorld :=
  { runningWorld with mountAttached := false }

/-- Claim C3 fails on the code: when teardown is requested while the lazy
module load is pending, nothing suppresses the pending setup, so when the
load resolves with the mount region still attached the session still
reaches Running: the geometry is built and inserted, the resize listener
is registered, and a render-loop frame runs, all after the teardown
request. -/
theorem teardownDuringInit_resurrects :
    teardownDuringInitScenario.map DomWorld.geometryInserted = some true ∧
    teardownDuringInitScenario.map DomWorld.resizeListeners = some 1 ∧
    teardownDuringInitScenario.map DomWorld.framesRun = some 1 ∧
    teardownDuringInitScenario.map DomWorld.pendingFrame = some true := by
  decide

/-- Claim C4 fails on the code: the first invocation of the cleanup
closure succeeds, but the second invocation disposes the controls and the
renderer a second time and then raises a NotFoundError at the removeChild
step, because the canvas is no longer a child of the mount region. -/
theorem cleanup_not_idempotent :
    (cleanupRun runningWorld).error = none ∧
    (cleanupRun runningWorld).world.resizeListeners = 0 ∧
    (cleanupTwice runningWorld).error = some JsError.domNotFound ∧
    (cleanupTwice runningWorld).world.controlsDisposeCount = 2 ∧
    (cleanupTwice runningWorld).world.rendererDisposeCount = 2 := by
  decide

/-- Claim C5 fails on the code: when the mount region was already removed
by the host, the cleanup closure still dereferences mountRef.current for
removeChild and raises a TypeError instead of being a no-op. -/
theorem cleanup_after_mount_removed_raises :
    (cleanupRun detachedMountWorld).error = some JsError.typeErrorNullMount := by
  decide

/-- Claim C8: on a Running session whose mount region and canvas are in
place, the cleanup closure performs exactly its five steps in source
order: deregister the resize handler, stop the render loop, dispose the
controls, dispose the renderer, detach the canvas, and raises no error. -/
theorem cleanup_step_order (w : DomWorld) (hm : w.mountAttached = true)
    (hc : w.canvasInMount = true) :
    (cleanupRun w).events =
      [TeardownStep.removeResizeListener, TeardownStep.cancelAnimationFrame,
        TeardownStep.disposeControls, TeardownStep.disposeRenderer,
        TeardownStep.removeChildCanvas] ∧
    (cleanupRun w).error = none := by
  simp [cleanupRun, hm, hc]

/-- Witness for cleanup_step_order on the Running world. -/
theorem cleanup_step_order_witness :
    (cleanupRun runningWorld).events =
      [TeardownStep.removeResizeListener, TeardownStep.cancelAnimationFrame,
        TeardownStep.disposeControls, TeardownStep.disposeRenderer,
        TeardownStep.removeChildCanvas] ∧
    (cleanupRun runningWorld).error = none :=
  cleanup_step_order runningWorld (by decide) (by decide)

/-- Camera and rendering-surface state touched by the resize handler. -/
structure ViewState where
  aspect : ℚ
  surfaceW : ℚ
  surfaceH : ℚ
  projectionUpdated : Bool
  deriving DecidableEq, Repr

/-- onResize (App.tsx 67-73): w is the mount region client width, h is
max(400, window.innerHeight * 0.45); the handler resizes the rendering
surface to (w, h), sets the camera aspect to w / h and updates the
projection. -/
def onResize (clientWidth innerHeight : ℚ) (s : ViewState) : ViewState :=
  let w := clientWidth
  let h := max 400 (innerHeight * (9 / 20))
  { s with
    surfaceW := w
    surfaceH := h
    aspect := w / h
    projectionUpdated := true }

/-- Claim C6: after any resize event, the camera aspect equals exactly
w / h for w the mount client width and h = max(400, 0.45 * viewport
height), the surface is resized to (w, h), the projection is updated, and
the stored aspect agrees with the ratio of the stored surface sizes. -/
theorem onResize_aspect (clientWidth innerHeight : ℚ) (s : ViewState) :
    (onResize clientWidth innerHeight s).aspect =
      clientWidth / max 400 (innerHeight * (9 / 20)) ∧
    (onResize clientWidth innerHeight s).surfaceW = clientWidth ∧
    (onResize clientWidth innerHeight s).surfaceH =
      max 400 (innerHeight * (9 / 20)) ∧
    (onResize clientWidth innerHeight s).projectionUpdated = true ∧
    (onResize clientWidth innerHeight s).aspect =
      (onResize clientWidth innerHeight s).surfaceW /
        (onResize clientWidth innerHeight s).surfaceH := by
  refine ⟨rfl, rfl, rfl, rfl, rfl⟩

end CubeChess
